import Mathlib

/-!
Shallow embedding of the glucose-monitoring core of the GlucoseTracker
repository, together with theorems checking the natural-language
specification against it.

Conventions of the embedding:
* Python floats are modelled as rationals (ℚ); the numeric claims at stake
  are order and range facts, which floats and rationals agree on for the
  magnitudes involved.
* pandas missing values (NaN produced by a rolling window that is not yet
  full, or by a sample statistic of a too-short series) are modelled as
  `Option`, with `none` for a missing value.
* Functions that print diagnostics and return a value are modelled as
  returning the value paired with the list of diagnostics emitted, and
  raised Python exceptions are modelled with `Except`.
-/

namespace GlucoseTracker

/-! ### Series processor — utils/data_processor.py -/

/-- Arithmetic mean of a list of samples, `Series.mean()`. -/
def sampleMean (l : List ℚ) : ℚ := l.sum / (l.length : ℚ)

/-- Sample variance with N-1 denominator. pandas `Series.std()` is the
square root of this quantity; ℚ has no square root, and every claim about
the std column concerns only presence or order of the value, which the
square preserves on nonnegatives, so the embedding carries the variance. -/
def sampleVar (l : List ℚ) : ℚ :=
  (l.map (fun x => (x - sampleMean l) ^ 2)).sum / ((l.length : ℚ) - 1)

/-- pandas `Series.rolling(window=w)` aggregated with `f`, read at row
index `i` (0-based): once `w` rows are available the aggregate of rows
`i+1-w .. i`, and a missing value (NaN) before that. -/
def rollingAt (w : Nat) (f : List ℚ → ℚ) (l : List ℚ) (i : Nat) : Option ℚ :=
  if w ≤ i + 1 then some (f ((l.take (i + 1)).drop (i + 1 - w))) else none

/-- One row of the frame produced by `DataProcessor.process_glucose_data`:
the raw value together with the two rolling columns the function attaches
(`rolling_std` holds the rolling sample variance, see `sampleVar`). -/
structure EnrichedRow where
  sgv : ℚ
  rolling_avg : Option ℚ
  rolling_std : Option ℚ
deriving DecidableEq

/-- DataProcessor.process_glucose_data (utils/data_processor.py lines 7-19):
attaches `rolling_avg = df['sgv'].rolling(window=12).mean()` and
`rolling_std = df['sgv'].rolling(window=12).std()` to the frame. The
timestamp conversion column does not interact with any claim and is
omitted. On an empty frame the function returns it unchanged, which the
row-wise form below also yields. -/
def process_glucose_data (sgv : List ℚ) : List EnrichedRow :=
  (List.range sgv.length).map (fun i =>
    { sgv := sgv.getD i 0
      rolling_avg := rollingAt 12 sampleMean sgv i
      rolling_std := rollingAt 12 sampleVar sgv i })

/-- Membership test for the clinical target range used by
`calculate_statistics`: `(df['sgv'] >= 70) & (df['sgv'] <= 180)`. -/
def inTargetRange (v : ℚ) : Bool := decide (70 ≤ v) && decide (v ≤ 180)

/-- The statistics dictionary built by `DataProcessor.calculate_statistics`.
`std` is `Option` because pandas `Series.std()` of a single sample is NaN;
as with `sampleVar` it carries the variance. -/
structure StatsSnapshot where
  current : ℚ
  average : ℚ
  std : Option ℚ
  max : ℚ
  min : ℚ
  in_range : ℚ
deriving DecidableEq

/-- DataProcessor.calculate_statistics (utils/data_processor.py lines
22-35): on an empty frame returns the empty dictionary (modelled `none`);
otherwise `current` is `iloc[0]`, `average`/`std`/`max`/`min` the series
aggregates, and `in_range` the mean of the target-range indicator times
100. -/
def calculate_statistics : List ℚ → Option StatsSnapshot
  | [] => none
  | v :: vs =>
    some
      { current := v
        average := sampleMean (v :: vs)
        std := if 2 ≤ (v :: vs).length then some (sampleVar (v :: vs)) else none
        max := vs.foldl max v
        min := vs.foldl min v
        in_range := (((v :: vs).countP inTargetRange : ℚ) / ((v :: vs).length : ℚ)) * 100 }

/-! ### Threshold evaluator — components/glucose_display.py and app.py -/

/-- Classification outcome of a glucose value against the target range. -/
inductive GlucoseStatus
  | low
  | inRange
  | high
deriving DecidableEq

/-- Classification of display_current_glucose (components/glucose_display.py
lines 27-38, with the fixed bounds 70/180) and of the alert checks of
app.py lines 283-310 (with the configured thresholds): value below the low
bound is low, value above the high bound is high, everything else —
including a value exactly equal to a bound — is in range. -/
def classify (value low high : ℚ) : GlucoseStatus :=
  if value < low then .low
  else if value > high then .high
  else .inRange

/-- Alert decision taken by app.py. -/
inductive AlertDecision
  | noAlert
  | lowAlert
  | highAlert
deriving DecidableEq

/-- Alert gating and direction of app.py lines 273-310: alerts are
considered only when alerts are enabled, a recipient (phone or email) is
known and AlertManager.can_send_alerts holds; then value above the high
threshold fires a high alert, else value below the low threshold fires a
low alert, else nothing fires. -/
def shouldAlert (enableAlerts hasRecipient canSend : Bool)
    (value low high : ℚ) : AlertDecision :=
  if enableAlerts && hasRecipient && canSend then
    if value > high then .highAlert
    else if value < low then .lowAlert
    else .noAlert
  else .noAlert

example : classify 150 70 180 = .inRange := by norm_num [classify]
example : classify 70 70 180 = .inRange := by norm_num [classify]
example : classify (699/10) 70 180 = .low := by norm_num [classify]
example : classify (1801/10) 70 180 = .high := by norm_num [classify]
example : calculate_statistics [] = none := rfl

/-! ### Notification dispatcher — utils/alert_manager.py

The Python class reads its configuration from the environment; the
embedding packs the three relevant facts (Twilio client constructed,
sender number present, email password present) into `AlertConfig`.
The outcome of each outbound network call is an input (`smsSendOk`,
`emailSendOk`), since the remote side is outside the program. The Python
functions return a bare `Bool` and print their diagnostics; the embedding
returns the `Bool` paired with the list of diagnostics printed, each
print statement mapped to one `AlertEvent`. -/

/-- Configuration state of AlertManager after `_initialize_client`:
whether the Twilio client was constructed (both credentials present),
whether TWILIO_PHONE_NUMBER is set, and whether EMAIL_PASSWORD is set. -/
structure AlertConfig where
  twilioClient : Bool
  fromNumber : Bool
  emailPassword : Bool
deriving DecidableEq

/-- Python truthiness of an optional string (`if to_number:`): false for
None and for the empty string. -/
def truthy : Option String → Bool
  | none => false
  | some s => s != ""

/-- One diagnostic print of AlertManager, in source order of appearance. -/
inductive AlertEvent
  | smsSent
  | smsFailed
  | smsNotConfigured
  | emailSent
  | emailFailed
  | emailNotConfigured
  | noRecipientEmail
deriving DecidableEq

/-- SMS availability as checked inside send_glucose_alert
(`if cls.client and cls.from_number:`). -/
def smsConfigured (cfg : AlertConfig) : Bool :=
  cfg.twilioClient && cfg.fromNumber

/-- AlertManager.can_send_alerts (utils/alert_manager.py lines 50-61):
true when either SMS or email is configured. -/
def can_send_alerts (cfg : AlertConfig) : Bool :=
  smsConfigured cfg || cfg.emailPassword

/-- AlertManager.send_email_alert (utils/alert_manager.py lines 63-218):
rejects a missing recipient, then a missing email password, then sends;
returns True only when the SMTP send ran without exception. -/
def send_email_alert (cfg : AlertConfig) (to_email : String)
    (emailSendOk : Bool) : Bool × List AlertEvent :=
  if to_email == "" then (false, [.noRecipientEmail])
  else if !cfg.emailPassword then (false, [.emailNotConfigured])
  else if emailSendOk then (true, [.emailSent])
  else (false, [.emailFailed])

/-- AlertManager.send_glucose_alert (utils/alert_manager.py lines
220-286): tries the SMS channel when a phone number is given (skipping it
with a diagnostic when Twilio is not configured, recording a failure when
the send raises), then — regardless of the SMS outcome — tries the email
channel when an email address is given; returns True when at least one
send went through. -/
def send_glucose_alert (cfg : AlertConfig) (to_number to_email : Option String)
    (smsSendOk emailSendOk : Bool) : Bool × List AlertEvent :=
  let sms : Bool × List AlertEvent :=
    if truthy to_number then
      if smsConfigured cfg then
        if smsSendOk then (true, [.smsSent]) else (false, [.smsFailed])
      else (false, [.smsNotConfigured])
    else (false, [])
  let email : Bool × List AlertEvent :=
    if truthy to_email then send_email_alert cfg (to_email.getD "") emailSendOk
    else (false, [])
  (sms.1 || email.1, sms.2 ++ email.2)

/-- The SMS channel was actually attempted: a send ran (and succeeded or
raised). A skipped channel leaves neither event. -/
def attemptedSMS (log : List AlertEvent) : Prop :=
  .smsSent ∈ log ∨ .smsFailed ∈ log

/-- The email channel was actually attempted. -/
def attemptedEmail (log : List AlertEvent) : Prop :=
  .emailSent ∈ log ∨ .emailFailed ∈ log

/-- Diagnostics that report missing channel configuration. -/
def isConfigError : AlertEvent → Bool
  | .smsNotConfigured => true
  | .emailNotConfigured => true
  | _ => false

/-- The dispatch result carries some missing-configuration diagnostic. -/
def carriesConfigError (r : Bool × List AlertEvent) : Prop :=
  ∃ ev ∈ r.2, isConfigError ev = true

/-! ### Telemetry client — utils/nightscout_api.py

Raised Python exceptions are modelled as `Except.error` carrying a
`PyExc`; the class of the raised exception is the constructor. The remote
HTTP exchange is an input: either the decoded entry list or the exception
the requests library raised. -/

/-- Python exception classes that appear in the repository: the builtin
generic `Exception` and `requests.RequestException`. -/
inductive PyExc
  | exception (msg : String)
  | requestException (msg : String)
deriving DecidableEq

/-- The class of a raised exception — what an `except SomeClass:` clause
can distinguish. The message is not part of the kind. -/
def excKind : PyExc → String
  | .exception _ => "Exception"
  | .requestException _ => "RequestException"

/-- One record of the Nightscout `entries/sgv` response. -/
structure Entry where
  sgv : ℚ
  date : Int
  direction : String
deriving DecidableEq

/-- The placeholder URL that app.py pre-fills and that switches the client
into dev mode. -/
def placeholderURL : String := "https://your-nightscout-url.herokuapp.com"

/-- NightscoutAPI dev_mode flag (utils/nightscout_api.py line 9). -/
def nightscoutDevMode (base_url : String) : Bool := base_url == placeholderURL

/-- NightscoutAPI.get_glucose_data (utils/nightscout_api.py lines 11-33):
in dev mode returns generated sample data, otherwise performs the HTTP
fetch; a `requests.RequestException` is caught and re-raised as a plain
`Exception` with a fixed message prelude, any other exception propagates
unchanged. -/
def get_glucose_data (dev_mode : Bool) (sample : List Entry)
    (net : Except PyExc (List Entry)) : Except PyExc (List Entry) :=
  if dev_mode then .ok sample
  else
    match net with
    | .ok d => .ok d
    | .error (.requestException m) =>
        .error (.exception ("Failed to fetch data from Nightscout: " ++ m))
    | .error err => .error err

/-- NightscoutAPI.get_current_glucose (utils/nightscout_api.py lines
35-50): same shape, returning the first entry of the response when there
is one. -/
def get_current_glucose (dev_mode : Bool) (sample : Entry)
    (net : Except PyExc (List Entry)) : Except PyExc (Option Entry) :=
  if dev_mode then .ok (some sample)
  else
    match net with
    | .ok d => .ok d.head?
    | .error (.requestException m) =>
        .error (.exception ("Failed to fetch current glucose: " ++ m))
    | .error err => .error err

/-- The exception DatabaseManager.get_user_readings raises on a storage
failure (utils/db_utils.py line 77) — also a plain `Exception`. -/
def dbFetchError (m : String) : PyExc :=
  .exception ("Failed to fetch glucose readings: " ++ m)

/-! ### Persistence gateway — utils/db_utils.py and models/models.py -/

/-- models.GlucoseReading. Timestamps are modelled as integer seconds. -/
structure GlucoseReading where
  id : Nat
  user_id : Nat
  timestamp : Int
  glucose_value : ℚ
  source : String
deriving DecidableEq

/-- Most-recent-first comparison used by the `order_by(timestamp.desc())`
clause of get_user_readings. -/
def tsDesc (a b : GlucoseReading) : Prop := b.timestamp ≤ a.timestamp

instance : DecidableRel tsDesc := fun a b => Int.decLe b.timestamp a.timestamp

instance : IsTotal GlucoseReading tsDesc :=
  ⟨fun a b => le_total b.timestamp a.timestamp⟩

instance : IsTrans GlucoseReading tsDesc :=
  ⟨fun _ _ _ hab hbc => le_trans hbc hab⟩

/-- DatabaseManager.get_user_readings (utils/db_utils.py lines 63-77): the
stored readings of the user whose timestamp is at least `now` minus the
window, ordered by timestamp descending. The stored table is the input
list `db`; `now` stands for `datetime.utcnow()`. -/
def get_user_readings (db : List GlucoseReading) (user_id : Nat)
    (hours : Nat) (now : Int) : List GlucoseReading :=
  let since := now - (hours : Int) * 3600
  List.insertionSort tsDesc
    (db.filter fun r => r.user_id == user_id && decide (since ≤ r.timestamp))

/-- models.User. `created_at` is modelled as integer seconds. -/
structure User where
  id : Nat
  email : String
  phone_number : Option String
  nightscout_url : String
  created_at : Int
deriving DecidableEq

/-- The update applied by DatabaseManager.get_or_create_user to an
existing user (utils/db_utils.py lines 22-29): the stored URL is replaced
only by a truthy URL different from the placeholder, and the stored phone
number only by a truthy phone number. -/
def updateExistingUser (u : User) (nightscout_url : String)
    (phone_number : Option String) : User :=
  let u1 :=
    if (nightscout_url != "") && (nightscout_url != placeholderURL) then
      { u with nightscout_url := nightscout_url }
    else u
  if truthy phone_number then { u1 with phone_number := phone_number } else u1

/-- DatabaseManager.get_or_create_user (utils/db_utils.py lines 8-33): the
first user with the given email is updated in place, otherwise a fresh
user row is inserted (`newId` and `now` stand for the primary key and the
`created_at` default the database supplies). Returns the resulting user
and the new table. -/
def get_or_create_user (db : List User) (newId : Nat) (now : Int)
    (email nightscout_url : String) (phone_number : Option String) :
    User × List User :=
  match db.find? (fun u => u.email == email) with
  | some u =>
      let u1 := updateExistingUser u nightscout_url phone_number
      (u1, db.map fun v => if v.email == email then u1 else v)
  | none =>
      let u : User :=
        { id := newId
          email := email
          phone_number := if truthy phone_number then phone_number else none
          nightscout_url := nightscout_url
          created_at := now }
      (u, db ++ [u])

/-! ## Helper lemmas -/

theorem foldl_min_le (l : List ℚ) (a : ℚ) : l.foldl min a ≤ a := by
  induction l generalizing a with
  | nil => exact le_refl a
  | cons b t ih => exact le_trans (ih (min a b)) (min_le_left a b)

theorem foldl_min_le_mem {l : List ℚ} {x : ℚ} (a : ℚ) (hx : x ∈ l) :
    l.foldl min a ≤ x := by
  induction l generalizing a with
  | nil => cases hx
  | cons b t ih =>
    rcases List.mem_cons.1 hx with rfl | hx2
    · exact le_trans (foldl_min_le t (min a x)) (min_le_right a x)
    · exact ih (min a b) hx2

theorem le_foldl_max (l : List ℚ) (a : ℚ) : a ≤ l.foldl max a := by
  induction l generalizing a with
  | nil => exact le_refl a
  | cons b t ih => exact le_trans (le_max_left a b) (ih (max a b))

theorem le_foldl_max_mem {l : List ℚ} {x : ℚ} (a : ℚ) (hx : x ∈ l) :
    x ≤ l.foldl max a := by
  induction l generalizing a with
  | nil => cases hx
  | cons b t ih =>
    rcases List.mem_cons.1 hx with rfl | hx2
    · exact le_trans (le_max_right a x) (le_foldl_max t (max a x))
    · exact ih (max a b) hx2

theorem map_range_getElem? {α : Type} (g : Nat → α) (n i : Nat) :
    ((List.range n).map g)[i]? = if i < n then some (g i) else none := by
  rcases Nat.lt_or_ge i n with h | h
  · rw [List.getElem?_map, List.getElem?_range h]
    simp [h]
  · rw [List.getElem?_map, List.getElem?_eq_none (by simpa using h)]
    simp [Nat.not_lt.2 h]

/-! ## Claim theorems -/

/-- C2: for thresholds with low < high, classification is Low exactly when
the value is strictly below the low bound, High exactly when strictly
above the high bound, and InRange otherwise — a value equal to a bound is
InRange — as witnessed on 150, 70, 69.9 and 180.1 against the 70/180
bounds; and an alert decision fires only on a Low or High classification. -/
theorem c2_classify_boundaries (v low high : ℚ) (h : low < high) :
    (classify v low high = .low ↔ v < low) ∧
    (classify v low high = .high ↔ high < v) ∧
    (classify v low high = .inRange ↔ low ≤ v ∧ v ≤ high) ∧
    classify 150 70 180 = .inRange ∧
    classify 70 70 180 = .inRange ∧
    classify (699/10) 70 180 = .low ∧
    classify (1801/10) 70 180 = .high ∧
    (∀ en rec cs, shouldAlert en rec cs v low high ≠ .noAlert →
      classify v low high ≠ .inRange) := by
  refine ⟨?_, ?_, ?_, by norm_num [classify], by norm_num [classify],
    by norm_num [classify], by norm_num [classify], ?_⟩
  · unfold classify
    split_ifs with h1 h2 <;> simp_all
  · unfold classify
    split_ifs with h1 h2 <;> simp_all <;> linarith
  · unfold classify
    split_ifs with h1 h2 <;> simp_all <;> constructor <;> linarith
  · intro en rec cs halert
    unfold shouldAlert at halert
    unfold classify
    split_ifs at halert ⊢ with hg h1 h2 <;> simp_all <;> linarith

/-- Witness for C2 at value 150 against thresholds 70/180. -/
theorem c2_classify_boundaries_witness :
    (70 : ℚ) < 180 ∧
    ((classify 150 70 180 = .low ↔ (150 : ℚ) < 70) ∧
    (classify 150 70 180 = .high ↔ (180 : ℚ) < 150) ∧
    (classify 150 70 180 = .inRange ↔ (70 : ℚ) ≤ 150 ∧ (150 : ℚ) ≤ 180) ∧
    classify 150 70 180 = .inRange ∧
    classify 70 70 180 = .inRange ∧
    classify (699/10) 70 180 = .low ∧
    classify (1801/10) 70 180 = .high ∧
    (∀ en rec cs, shouldAlert en rec cs 150 70 180 ≠ .noAlert →
      classify 150 70 180 ≠ .inRange)) :=
  ⟨by decide, c2_classify_boundaries 150 70 180 (by decide)⟩

/-- C3: on any non-empty series the statistics snapshot exists and
satisfies min ≤ mean ≤ max and 0 ≤ percent-in-range ≤ 100, the
percent-in-range being the count of values inside [70, 180] over the
length, times 100. -/
theorem c3_stats_invariants (v : ℚ) (vs : List ℚ) :
    ∃ s, calculate_statistics (v :: vs) = some s ∧
      s.min ≤ s.average ∧ s.average ≤ s.max ∧
      0 ≤ s.in_range ∧ s.in_range ≤ 100 ∧
      s.in_range =
        (((v :: vs).countP inTargetRange : ℚ) / ((v :: vs).length : ℚ)) * 100 := by
  have hn : (0 : ℚ) < ((v :: vs).length : ℚ) := by
    exact_mod_cast Nat.succ_pos vs.length
  refine ⟨_, rfl, ?_, ?_, ?_, ?_, rfl⟩
  · show vs.foldl min v ≤ sampleMean (v :: vs)
    have hmem : ∀ x ∈ v :: vs, vs.foldl min v ≤ x := by
      intro x hx
      rcases List.mem_cons.1 hx with rfl | hx2
      · exact foldl_min_le vs x
      · exact foldl_min_le_mem v hx2
    have hsum := List.card_nsmul_le_sum (v :: vs) (vs.foldl min v) hmem
    rw [nsmul_eq_mul] at hsum
    rw [sampleMean, le_div_iff hn, mul_comm]
    exact hsum
  · show sampleMean (v :: vs) ≤ vs.foldl max v
    have hmem : ∀ x ∈ v :: vs, x ≤ vs.foldl max v := by
      intro x hx
      rcases List.mem_cons.1 hx with rfl | hx2
      · exact le_foldl_max vs x
      · exact le_foldl_max_mem v hx2
    have hsum := List.sum_le_card_nsmul (v :: vs) (vs.foldl max v) hmem
    rw [nsmul_eq_mul] at hsum
    rw [sampleMean, div_le_iff hn, mul_comm]
    exact hsum
  · exact mul_nonneg (div_nonneg (Nat.cast_nonneg _) (Nat.cast_nonneg _))
      (by norm_num)
  · have hc : (((v :: vs).countP inTargetRange : ℚ)) ≤ ((v :: vs).length : ℚ) := by
      exact_mod_cast List.countP_le_length inTargetRange
    have h1 : (((v :: vs).countP inTargetRange : ℚ) / ((v :: vs).length : ℚ)) ≤ 1 :=
      (div_le_one hn).2 hc
    calc (((v :: vs).countP inTargetRange : ℚ) / ((v :: vs).length : ℚ)) * 100
        ≤ 1 * 100 := mul_le_mul_of_nonneg_right h1 (by norm_num)
      _ = 100 := by norm_num

/-- C5: the statistics of an empty series are the explicit empty result
(the Python function returns the empty dictionary), not a number. -/
theorem c5_stats_empty : calculate_statistics [] = none := rfl

/-- A concrete 20-sample series used by the spec example for `enrich`. -/
def sample20 : List ℚ :=
  [100, 105, 110, 115, 120, 125, 130, 135, 140, 145,
   150, 155, 160, 165, 170, 175, 180, 175, 170, 165]

/-- C4: process_glucose_data attaches rolling mean and rolling std over a
trailing window of exactly 12 samples: on every series a position among
the first 11 carries the explicit absent value on both rolling columns,
any later position carries the aggregates of the 12 trailing samples; on
the concrete 20-sample series the rolling columns are absent exactly at
positions 1-11 and defined exactly at positions 12-20. -/
theorem c4_rolling_window (sgv : List ℚ) (i : Nat) (hlen : i < sgv.length) :
    (i < 11 → (process_glucose_data sgv)[i]? =
      some { sgv := sgv.getD i 0, rolling_avg := none, rolling_std := none }) ∧
    (11 ≤ i → (process_glucose_data sgv)[i]? =
      some { sgv := sgv.getD i 0
             rolling_avg := some (sampleMean ((sgv.take (i + 1)).drop (i + 1 - 12)))
             rolling_std := some (sampleVar ((sgv.take (i + 1)).drop (i + 1 - 12))) }) ∧
    ((process_glucose_data sample20).map fun r =>
        (r.rolling_avg.isSome, r.rolling_std.isSome)) =
      List.replicate 11 (false, false) ++ List.replicate 9 (true, true) := by
  refine ⟨?_, ?_, by rfl⟩
  · intro h11
    unfold process_glucose_data
    rw [map_range_getElem?]
    have hw : ¬ 12 ≤ i + 1 := by omega
    simp [hlen, rollingAt, hw]
  · intro h11
    unfold process_glucose_data
    rw [map_range_getElem?]
    have hw : 12 ≤ i + 1 := by omega
    simp [hlen, rollingAt, hw]

/-- Witness for C4 at position 12 (index 11) of the 20-sample series. -/
theorem c4_rolling_window_witness :
    11 < sample20.length ∧
    ((11 < 11 → (process_glucose_data sample20)[11]? =
      some { sgv := sample20.getD 11 0, rolling_avg := none, rolling_std := none }) ∧
    (11 ≤ 11 → (process_glucose_data sample20)[11]? =
      some { sgv := sample20.getD 11 0
             rolling_avg := some (sampleMean ((sample20.take (11 + 1)).drop (11 + 1 - 12)))
             rolling_std := some (sampleVar ((sample20.take (11 + 1)).drop (11 + 1 - 12))) }) ∧
    ((process_glucose_data sample20).map fun r =>
        (r.rolling_avg.isSome, r.rolling_std.isSome)) =
      List.replicate 11 (false, false) ++ List.replicate 9 (true, true)) :=
  ⟨by decide, c4_rolling_window sample20 11 (by decide)⟩

/-- Closed form of send_email_alert for a non-empty recipient. -/
theorem send_email_alert_nonempty (cfg : AlertConfig) (s : String)
    (hs : (s == "") = false) (e : Bool) :
    send_email_alert cfg s e =
      (cfg.emailPassword && e,
       if cfg.emailPassword then (if e then [.emailSent] else [.emailFailed])
       else [.emailNotConfigured]) := by
  unfold send_email_alert
  cases hp : cfg.emailPassword <;> cases e <;> simp [hs, hp]

/-- Closed form of send_glucose_alert: the returned boolean is the
disjunction of the two channel outcomes, and the printed-diagnostics log
is the concatenation of the per-channel logs. -/
theorem send_glucose_alert_eq (cfg : AlertConfig) (tn te : Option String)
    (s e : Bool) :
    send_glucose_alert cfg tn te s e =
      ((truthy tn && smsConfigured cfg && s) || (truthy te && cfg.emailPassword && e),
       (if truthy tn then
          if smsConfigured cfg then (if s then [.smsSent] else [.smsFailed])
          else [.smsNotConfigured]
        else [])
       ++ (if truthy te then
             if cfg.emailPassword then (if e then [.emailSent] else [.emailFailed])
             else [.emailNotConfigured]
           else [])) := by
  have hemail : (if truthy te then send_email_alert cfg (te.getD "") e
        else ((false, []) : Bool × List AlertEvent)) =
      ((truthy te && cfg.emailPassword && e),
       if truthy te then
         (if cfg.emailPassword then (if e then [.emailSent] else [.emailFailed])
          else [.emailNotConfigured])
       else []) := by
    rcases te with _ | s0
    · simp [truthy]
    · by_cases hs : s0 = ""
      · subst hs
        simp [truthy]
      · have hne : (s0 == "") = false := by simp [hs]
        have ht : truthy (some s0) = true := by simp [truthy, hs]
        simp only [ht, if_true, Option.getD_some,
          send_email_alert_nonempty cfg s0 hne e, Bool.true_and]
  unfold send_glucose_alert
  rw [hemail]
  cases htn : truthy tn <;> cases hsc : smsConfigured cfg <;> cases s <;> simp

/-- C1: dispatch attempts every configured channel — a channel is
attempted exactly when its recipient is supplied and its credentials are
present, independently of what happens on the other channel — and the
returned boolean is success exactly when at least one attempted send
succeeded; in particular with a configured SMS channel whose send fails
and a configured email channel whose send succeeds it returns success and
reports the SMS failure. -/
theorem c1_dispatch_policy (cfg : AlertConfig) (tn te : Option String)
    (s e : Bool) :
    ((send_glucose_alert cfg tn te s e).1 =
      ((truthy tn && smsConfigured cfg && s) ||
       (truthy te && cfg.emailPassword && e))) ∧
    (attemptedSMS (send_glucose_alert cfg tn te s e).2 ↔
      (truthy tn && smsConfigured cfg) = true) ∧
    (attemptedEmail (send_glucose_alert cfg tn te s e).2 ↔
      (truthy te && cfg.emailPassword) = true) ∧
    send_glucose_alert ⟨true, true, true⟩ (some "+15551234567")
      (some "user@example.com") false true = (true, [.smsFailed, .emailSent]) := by
  rw [send_glucose_alert_eq]
  refine ⟨rfl, ?_, ?_, ?_⟩
  · unfold attemptedSMS
    cases htn : truthy tn <;> cases hsc : smsConfigured cfg <;> cases s <;>
      cases hte : truthy te <;> cases hp : cfg.emailPassword <;> cases e <;>
      simp
  · unfold attemptedEmail
    cases htn : truthy tn <;> cases hsc : smsConfigured cfg <;> cases s <;>
      cases hte : truthy te <;> cases hp : cfg.emailPassword <;> cases e <;>
      simp
  · rw [send_glucose_alert_eq]
    decide

/-- C6 counterexample: dispatch with zero channels configured (no
recipient at all, nothing configured) returns the bare boolean False with
an empty diagnostics log — overall failure, but the result carries no
ConfigurationError-flavored reason, contrary to the claim. -/
theorem c6_counterexample :
    (send_glucose_alert ⟨false, false, false⟩ none none false false).1 = false ∧
    (send_glucose_alert ⟨false, false, false⟩ none none false false).2 = [] ∧
    ¬ carriesConfigError
      (send_glucose_alert ⟨false, false, false⟩ none none false false) := by
  refine ⟨rfl, rfl, ?_⟩
  rintro ⟨ev, hev, -⟩
  simp [send_glucose_alert, truthy] at hev

/-- C6 amended: with no channel both supplied and configured, dispatch
returns overall failure (never a silent success); a ConfigurationError-
flavored diagnostic is printed for a channel exactly when a recipient was
supplied for it while its configuration is missing — with no recipients
the failure carries no reason at all. -/
theorem c6_unconfigured_failure (cfg : AlertConfig) (tn te : Option String)
    (s e : Bool) (h1 : (truthy tn && smsConfigured cfg) = false)
    (h2 : (truthy te && cfg.emailPassword) = false) :
    (send_glucose_alert cfg tn te s e).1 = false ∧
    (truthy tn = true →
      AlertEvent.smsNotConfigured ∈ (send_glucose_alert cfg tn te s e).2) ∧
    (truthy te = true →
      AlertEvent.emailNotConfigured ∈ (send_glucose_alert cfg tn te s e).2) := by
  rw [send_glucose_alert_eq]
  refine ⟨?_, ?_, ?_⟩
  · show ((truthy tn && smsConfigured cfg) && s || (truthy te && cfg.emailPassword) && e) = false
    rw [h1, h2]
    simp
  · intro htn
    rw [htn] at h1 ⊢
    simp at h1
    simp [h1]
  · intro hte
    rw [hte] at h2 ⊢
    simp at h2
    simp [h2]

/-- Witness for C6 amended: recipients supplied on both channels, nothing
configured. -/
theorem c6_unconfigured_failure_witness :
    (truthy (some "+15551234567") && smsConfigured ⟨false, false, false⟩) = false ∧
    (truthy (some "user@example.com") && AlertConfig.emailPassword ⟨false, false, false⟩) = false ∧
    ((send_glucose_alert ⟨false, false, false⟩ (some "+15551234567")
        (some "user@example.com") true true).1 = false ∧
    (truthy (some "+15551234567") = true →
      AlertEvent.smsNotConfigured ∈ (send_glucose_alert ⟨false, false, false⟩
        (some "+15551234567") (some "user@example.com") true true).2) ∧
    (truthy (some "user@example.com") = true →
      AlertEvent.emailNotConfigured ∈ (send_glucose_alert ⟨false, false, false⟩
        (some "+15551234567") (some "user@example.com") true true).2)) :=
  ⟨by decide, by decide,
    c6_unconfigured_failure ⟨false, false, false⟩ (some "+15551234567")
      (some "user@example.com") true true (by decide) (by decide)⟩

/-- C7 counterexample: a dispatch whose only channel is skipped for
missing configuration and a dispatch whose only channel was attempted and
failed return the identical boolean — the value returned to the caller
does not distinguish a skipped channel from an attempted-and-failed one;
only the printed diagnostics differ. -/
theorem c7_counterexample :
    (send_glucose_alert ⟨false, false, false⟩ (some "+15551234567") none false false).1 =
      (send_glucose_alert ⟨true, true, false⟩ (some "+15551234567") none false false).1 ∧
    (send_glucose_alert ⟨false, false, false⟩ (some "+15551234567") none false false).2 =
      [.smsNotConfigured] ∧
    (send_glucose_alert ⟨true, true, false⟩ (some "+15551234567") none false false).2 =
      [.smsFailed] := by
  refine ⟨?_, ?_, ?_⟩ <;> decide

/-- C7 amended: a channel with missing configuration is skipped — no send
is attempted, a skip diagnostic (not a failure diagnostic) is printed,
and the overall boolean equals the other channel outcome alone, so the
skip is not counted as a failure — but skipped and attempted-and-failed
channels are distinguishable only in the printed diagnostics, not in the
returned boolean. -/
theorem c7_skip_not_attempted (cfg : AlertConfig) (tn te : Option String)
    (s e : Bool) (h1 : truthy tn = true) (h2 : smsConfigured cfg = false) :
    ¬ attemptedSMS (send_glucose_alert cfg tn te s e).2 ∧
    AlertEvent.smsNotConfigured ∈ (send_glucose_alert cfg tn te s e).2 ∧
    AlertEvent.smsFailed ∉ (send_glucose_alert cfg tn te s e).2 ∧
    (send_glucose_alert cfg tn te s e).1 = (truthy te && cfg.emailPassword && e) := by
  rw [send_glucose_alert_eq, h1, h2]
  refine ⟨?_, ?_, ?_, ?_⟩
  · unfold attemptedSMS
    cases hte : truthy te <;> cases hp : cfg.emailPassword <;> cases e <;> simp
  · simp
  · cases hte : truthy te <;> cases hp : cfg.emailPassword <;> cases e <;> simp
  · simp

/-- Witness for C7 amended: phone supplied, Twilio unconfigured, email
configured and succeeding. -/
theorem c7_skip_not_attempted_witness :
    truthy (some "+15551234567") = true ∧
    smsConfigured ⟨false, false, true⟩ = false ∧
    (¬ attemptedSMS (send_glucose_alert ⟨false, false, true⟩ (some "+15551234567")
        (some "user@example.com") true true).2 ∧
    AlertEvent.smsNotConfigured ∈ (send_glucose_alert ⟨false, false, true⟩
        (some "+15551234567") (some "user@example.com") true true).2 ∧
    AlertEvent.smsFailed ∉ (send_glucose_alert ⟨false, false, true⟩
        (some "+15551234567") (some "user@example.com") true true).2 ∧
    (send_glucose_alert ⟨false, false, true⟩ (some "+15551234567")
        (some "user@example.com") true true).1 =
      (truthy (some "user@example.com") &&
        AlertConfig.emailPassword ⟨false, false, true⟩ && true)) :=
  ⟨by decide, by decide,
    c7_skip_not_attempted ⟨false, false, true⟩ (some "+15551234567")
      (some "user@example.com") true true (by decide) (by decide)⟩

/-- C8 counterexample: a network failure in get_glucose_data surfaces as a
raised generic `Exception` — the same exception kind the persistence layer
raises — so it is not a distinct TelemetryError kind distinguishable from
other error kinds. -/
theorem c8_counterexample :
    get_glucose_data false [] (.error (.requestException "timeout")) =
      .error (.exception ("Failed to fetch data from Nightscout: " ++ "timeout")) ∧
    excKind (.exception ("Failed to fetch data from Nightscout: " ++ "timeout")) =
      excKind (dbFetchError "disk full") :=
  ⟨rfl, rfl⟩

/-- C8 amended: a `requests.RequestException` (network or JSON-parse
failure) in the telemetry client is caught and re-raised as a generic
`Exception` whose message names the telemetry fetch; callers can tell it
apart from other failures only by that message, not by a distinct
exception kind, and the dashboard survives it by catching `Exception` at
the top level. -/
theorem c8_generic_exception (m : String) (sample : List Entry) (cur : Entry) :
    get_glucose_data false sample (.error (.requestException m)) =
      .error (.exception ("Failed to fetch data from Nightscout: " ++ m)) ∧
    get_current_glucose false cur (.error (.requestException m)) =
      .error (.exception ("Failed to fetch current glucose: " ++ m)) ∧
    excKind (.exception ("Failed to fetch data from Nightscout: " ++ m)) =
      excKind (dbFetchError m) :=
  ⟨rfl, rfl, rfl⟩

/-- C9: get_user_readings returns exactly the stored readings of the user
whose timestamp lies in the lookback window, ordered most-recent-first,
and calculate_statistics takes its current field from the first element
of the series. -/
theorem c9_readings_window (db : List GlucoseReading) (uid : Nat)
    (hours : Nat) (now : Int) :
    (∀ r, r ∈ get_user_readings db uid hours now ↔
      (r ∈ db ∧ r.user_id = uid ∧ now - (hours : Int) * 3600 ≤ r.timestamp)) ∧
    (get_user_readings db uid hours now).Perm
      (db.filter fun r =>
        r.user_id == uid && decide (now - (hours : Int) * 3600 ≤ r.timestamp)) ∧
    (get_user_readings db uid hours now).Sorted tsDesc ∧
    (∀ (v : ℚ) (vs : List ℚ),
      (calculate_statistics (v :: vs)).map StatsSnapshot.current = some v) := by
  have hperm : (get_user_readings db uid hours now).Perm
      (db.filter fun r =>
        r.user_id == uid && decide (now - (hours : Int) * 3600 ≤ r.timestamp)) :=
    List.perm_insertionSort tsDesc _
  refine ⟨?_, hperm, ?_, ?_⟩
  · intro r
    rw [hperm.mem_iff, List.mem_filter]
    simp [and_assoc]
  · exact List.sorted_insertionSort tsDesc _
  · intro v vs
    rfl


/-- Pointwise description of the update applied to an existing user. -/
theorem updateExistingUser_spec (u : User) (nsUrl : String)
    (phone : Option String) :
    updateExistingUser u nsUrl phone =
      { u with
        nightscout_url :=
          if (nsUrl != "") && (nsUrl != placeholderURL) then nsUrl
          else u.nightscout_url
        phone_number := if truthy phone then phone else u.phone_number } := by
  unfold updateExistingUser
  cases h1 : ((nsUrl != "") && (nsUrl != placeholderURL)) <;>
    cases h2 : truthy phone <;> simp [h1, h2]

/-- C10: get_or_create_user on an existing user leaves id, email and
created_at unchanged, replaces the stored nightscout_url only by a
non-empty non-placeholder value, and replaces the stored phone number
only by a truthy (non-empty) one — in particular it never clears a
stored phone number. -/
theorem c10_update_preserves (db : List User) (newId : Nat) (now : Int)
    (email nsUrl : String) (phone : Option String) (u : User)
    (h : db.find? (fun v => v.email == email) = some u) :
    (get_or_create_user db newId now email nsUrl phone).1.id = u.id ∧
    (get_or_create_user db newId now email nsUrl phone).1.email = u.email ∧
    (get_or_create_user db newId now email nsUrl phone).1.created_at = u.created_at ∧
    ((get_or_create_user db newId now email nsUrl phone).1.nightscout_url =
        u.nightscout_url ∨
      ((get_or_create_user db newId now email nsUrl phone).1.nightscout_url = nsUrl ∧
        nsUrl ≠ "" ∧ nsUrl ≠ placeholderURL)) ∧
    ((get_or_create_user db newId now email nsUrl phone).1.phone_number =
        u.phone_number ∨
      (truthy phone = true ∧
        (get_or_create_user db newId now email nsUrl phone).1.phone_number = phone)) ∧
    ((get_or_create_user db newId now email nsUrl phone).1.phone_number = none →
      u.phone_number = none) := by
  have hres : (get_or_create_user db newId now email nsUrl phone).1 =
      updateExistingUser u nsUrl phone := by
    unfold get_or_create_user
    rw [h]
  rw [hres, updateExistingUser_spec]
  refine ⟨rfl, rfl, rfl, ?_, ?_, ?_⟩
  · show (if (nsUrl != "") && (nsUrl != placeholderURL) then nsUrl
        else u.nightscout_url) = u.nightscout_url ∨ _
    cases h1 : ((nsUrl != "") && (nsUrl != placeholderURL))
    · left
      simp [h1]
    · right
      have h1b := h1
      rw [Bool.and_eq_true, bne_iff_ne, bne_iff_ne] at h1b
      exact ⟨by simp [h1], h1b.1, h1b.2⟩
  · show (if truthy phone then phone else u.phone_number) = u.phone_number ∨ _
    cases h2 : truthy phone
    · left
      simp [h2]
    · right
      exact ⟨rfl, by simp [h2]⟩
  · show (if truthy phone then phone else u.phone_number) = none →
      u.phone_number = none
    cases h2 : truthy phone
    · intro hn
      simpa [h2] using hn
    · intro hn
      rw [if_pos rfl] at hn
      subst hn
      simp [truthy] at h2

/-- A concrete stored user for the C10 witness. -/
def demoUser : User :=
  { id := 1
    email := "a@b.example"
    phone_number := some "+15551234567"
    nightscout_url := "https://real.example.com"
    created_at := 7 }

/-- Witness for C10: one stored user, called with the placeholder URL and
no phone number — everything is preserved. -/
theorem c10_update_preserves_witness :
    [demoUser].find? (fun v => v.email == "a@b.example") = some demoUser ∧
    ((get_or_create_user [demoUser] 2 9 "a@b.example" placeholderURL none).1.id =
        demoUser.id ∧
      (get_or_create_user [demoUser] 2 9 "a@b.example" placeholderURL
          none).1.nightscout_url = demoUser.nightscout_url ∧
      (get_or_create_user [demoUser] 2 9 "a@b.example" placeholderURL
          none).1.phone_number = demoUser.phone_number) := by
  have h := c10_update_preserves [demoUser] 2 9 "a@b.example" placeholderURL none
    demoUser (by decide)
  refine ⟨by decide, h.1, ?_, ?_⟩
  · rcases h.2.2.2.1 with h4 | ⟨-, -, h4⟩
    · exact h4
    · exact absurd rfl h4
  · rcases h.2.2.2.2.1 with h5 | ⟨h5, -⟩
    · exact h5
    · exact absurd h5 (by decide)

end GlucoseTracker
